import Mathlib

/-!
Shallow embedding of the BodyBack attendance-tracking and volume-approval core
(`app/api/v1/sessions.py`, `app/api/v1/session_volumes.py`, `app/api/v1/qr_codes.py`,
`app/crud/session_volume.py`, `app/crud/base.py`, `app/models/session_volume.py`).

The relational store is modelled as lists of rows; SQLAlchemy's identity map is
modelled by reading rows back from the store after each commit.  UUIDs are
modelled as naturals drawn from a fresh-id counter.  `deleted_at IS NULL` is
modelled as a `deleted : Bool` flag on the rows that carry a `deleted_at`
column (`session_volumes`, `users`, `customers`); the `session_tracking` table
has no `deleted_at` column in `app/models/session_tracking.py`, so its rows
carry no flag.
-/

namespace BodyBack

/-- A Python `datetime.date`. -/
structure PyDate where
  year : Nat
  month : Nat
  day : Nat
deriving DecidableEq, Repr

/-- `session_date.replace(day=1)` — first day of the month, used as the Volume period. -/
def PyDate.replaceDay1 (d : PyDate) : PyDate := { d with day := 1 }

/-- Zero-padded two-digit rendering, as in Python `date.__str__`. -/
def pad2 (n : Nat) : String := if n < 10 then "0" ++ toString n else toString n

/-- Python `str(date)` — ISO `YYYY-MM-DD`. -/
def PyDate.isoStr (d : PyDate) : String :=
  toString d.year ++ "-" ++ pad2 d.month ++ "-" ++ pad2 d.day

/-- The closed status set of `session_volumes.status`
(check constraint in `app/models/session_volume.py`). -/
inductive VStatus where
  | draft
  | submitted
  | read
  | approved
  | rejected
deriving DecidableEq, Repr

/-- The literal status string, as stored in the `status` column. -/
def VStatus.text : VStatus → String
  | .draft => "draft"
  | .submitted => "submitted"
  | .read => "read"
  | .approved => "approved"
  | .rejected => "rejected"

/-- Row of `users` (`app/models/user.py`), restricted to the columns the core reads. -/
structure User where
  id : Nat
  email : String
  active : Bool
  deleted : Bool
  first_name : Option String
  last_name : Option String
  role : Option String
deriving DecidableEq, Repr

/-- `User.full_name` property: `first_name + " " + last_name` when both are truthy,
else the email. -/
def User.full_name (u : User) : String :=
  match u.first_name, u.last_name with
  | some f, some l => if f ≠ "" ∧ l ≠ "" then f ++ " " ++ l else u.email
  | _, _ => u.email

/-- `User.has_role`: the single role relation's name equals the given name. -/
def User.has_role (u : User) (r : String) : Bool :=
  match u.role with
  | some n => n == r
  | none => false

/-- `user_crud.is_active`: `user.active and user.deleted_at is None`. -/
def userIsActive (u : User) : Bool := u.active && !u.deleted

/-- Row of `qr_codes` (`app/models/qr_code.py`). -/
structure QRCode where
  id : Nat
  user_id : Nat
  token : String
deriving DecidableEq, Repr

/-- Row of `customers` (`app/models/customer.py`). -/
structure Customer where
  user_id : Nat
  trainer_id : Option Nat
  deleted : Bool
deriving DecidableEq, Repr

/-- Row of `session_volumes` (`app/models/session_volume.py`). -/
structure SessionVolume where
  id : Nat
  trainer_id : Nat
  customer_id : Nat
  period : PyDate
  session_count : Nat
  plans : Option String
  notes : Option String
  status : VStatus
  deleted : Bool
deriving DecidableEq, Repr

/-- `SessionVolume.submit`: draft → submitted, otherwise unchanged. -/
def SessionVolume.submit (v : SessionVolume) : SessionVolume :=
  if v.status = .draft then { v with status := .submitted } else v

/-- `SessionVolume.mark_as_read`: submitted → read, otherwise unchanged. -/
def SessionVolume.mark_as_read (v : SessionVolume) : SessionVolume :=
  if v.status = .submitted then { v with status := .read } else v

/-- `SessionVolume.approve`: submitted/read → approved, otherwise unchanged. -/
def SessionVolume.approve (v : SessionVolume) : SessionVolume :=
  if v.status = .submitted ∨ v.status = .read then { v with status := .approved } else v

/-- `SessionVolume.reject`: submitted/read → rejected, otherwise unchanged. -/
def SessionVolume.reject (v : SessionVolume) : SessionVolume :=
  if v.status = .submitted ∨ v.status = .read then { v with status := .rejected } else v

/-- `SessionVolume.reopen`: rejected → draft, otherwise unchanged. -/
def SessionVolume.reopen (v : SessionVolume) : SessionVolume :=
  if v.status = .rejected then { v with status := .draft } else v

/-- Row of `session_tracking` (`app/models/session_tracking.py`); the model has no
`deleted_at` column. -/
structure SessionTracking where
  id : Nat
  trainer_id : Nat
  qr_code_id : Nat
  session_volume_id : Nat
  session_date : PyDate
deriving DecidableEq, Repr

/-- The relational store: one list per table, plus a fresh-id source standing for
`uuid4` generation. -/
structure DB where
  users : List User
  qr_codes : List QRCode
  customers : List Customer
  volumes : List SessionVolume
  sessions : List SessionTracking
  nextId : Nat
deriving DecidableEq, Repr

/-- `qr_code_crud.get_by_token`: `.filter(QRCode.token == token).first()`. -/
def DB.qrByToken (db : DB) (token : String) : Option QRCode :=
  db.qr_codes.find? (fun q => q.token == token)

/-- The `qr_code.user` relationship / `user_crud.get`. -/
def DB.userById (db : DB) (uid : Nat) : Option User :=
  db.users.find? (fun u => u.id == uid)

/-- `customer_crud.get_by_user_id`: `.filter(Customer.user_id == user_id).first()`
(no deleted filter). -/
def DB.customerByUserId (db : DB) (uid : Nat) : Option Customer :=
  db.customers.find? (fun c => c.user_id == uid)

/-- `CRUDBase.get` on session volumes: `.filter(model.id == id).first()` —
note: no `deleted_at` filter. -/
def DB.volumeById (db : DB) (vid : Nat) : Option SessionVolume :=
  db.volumes.find? (fun v => v.id == vid)

/-- `session_tracking_crud.get`: lookup by id, no deleted filter (and the model has
no such column). -/
def DB.sessionById (db : DB) (sid : Nat) : Option SessionTracking :=
  db.sessions.find? (fun s => s.id == sid)

/-- Persisting a mutation of an ORM row: every stored row with this id takes the
new value (the identity map makes the fetched object the stored row). -/
def DB.writeVolume (db : DB) (vid : Nat) (f : SessionVolume → SessionVolume) : DB :=
  { db with volumes := db.volumes.map (fun v => if v.id == vid then f v else v) }

/-- The duplicate-scan filter of `track_session`:
`(trainer_id, qr_code_id, session_date)` equality. -/
def tripleMatch (tid qid : Nat) (d : PyDate) (s : SessionTracking) : Bool :=
  s.trainer_id == tid && s.qr_code_id == qid && s.session_date == d

/-- Number of stored AttendanceEvents for one `(recorder, token, date)` triple. -/
def tripleCount (db : DB) (tid qid : Nat) (d : PyDate) : Nat :=
  (db.sessions.filter (tripleMatch tid qid d)).length

/-- Number of stored AttendanceEvents referencing a given Volume id (the model has
no deleted flag on events, so all stored events are non-deleted). -/
def eventCount (db : DB) (vid : Nat) : Nat :=
  (db.sessions.filter (fun s => s.session_volume_id == vid)).length

/-- The key filter of `get_or_create_for_period`:
`trainer_id ==, customer_id ==, period ==, deleted_at IS NULL`. -/
def keyMatch (trainer_id customer_id : Nat) (period : PyDate) (v : SessionVolume) : Bool :=
  v.trainer_id == trainer_id && v.customer_id == customer_id &&
    v.period == period && !v.deleted

/-- Number of stored non-deleted Volumes for one `(recorder, subject, period)` key. -/
def keyCount (db : DB) (trainer_id customer_id : Nat) (period : PyDate) : Nat :=
  (db.volumes.filter (keyMatch trainer_id customer_id period)).length

/-- `session_volume_crud.get_or_create_for_period`: return the existing non-deleted
Volume for `(trainer_id, customer_id, period)`, else create one via
`SessionVolumeCreate(..., session_count=0)` whose schema defaults give
`status="draft"`, `plans=None`, `notes=None`. -/
def get_or_create_for_period (db : DB) (trainer_id customer_id : Nat) (period : PyDate) :
    SessionVolume × DB :=
  match db.volumes.find? (keyMatch trainer_id customer_id period) with
  | some existing => (existing, db)
  | none =>
      let v : SessionVolume :=
        { id := db.nextId, trainer_id := trainer_id, customer_id := customer_id,
          period := period, session_count := 0, plans := none, notes := none,
          status := .draft, deleted := false }
      (v, { db with volumes := db.volumes ++ [v], nextId := db.nextId + 1 })

/-- `session_volume_crud.increment_session_count(db, session_volume_id=...)`:
fetch by id (no deleted filter); if found, `session_count += 1` and commit. -/
def increment_session_count (db : DB) (session_volume_id : Nat) : DB :=
  match db.volumeById session_volume_id with
  | some _ => db.writeVolume session_volume_id
      (fun v => { v with session_count := v.session_count + 1 })
  | none => db

/-- `session_volume_crud.decrement_session_count`: fetch by id; if found and
`session_count > 0`, `session_count -= 1` and commit. -/
def decrement_session_count (db : DB) (session_volume_id : Nat) : DB :=
  match db.volumeById session_volume_id with
  | some volume =>
      if volume.session_count > 0 then
        db.writeVolume session_volume_id
          (fun v => { v with session_count := v.session_count - 1 })
      else db
  | none => db

/-- The body of a successful `POST /sessions/track` response. -/
structure TrackResponse where
  session_id : Nat
  message : String
  customer_name : String
  session_date : PyDate
  monthly_volume_id : Nat
  total_sessions_this_month : Nat
deriving DecidableEq, Repr

/-- Outcome of `track_session`, tagged with the HTTP error paths of the endpoint. -/
inductive TrackResult where
  /-- 403 from the `require_trainer_or_admin` dependency. -/
  | forbidden
  /-- 404 "Invalid QR code". -/
  | notFound
  /-- 400 "Customer not found or inactive". -/
  | customerInactive
  /-- 409 "Session already recorded for ... on ...". -/
  | conflict
  /-- 201-style success body. -/
  | success (resp : TrackResponse)
deriving DecidableEq, Repr

/-- `POST /sessions/track` (`track_session` in `app/api/v1/sessions.py`), with the
request's `session_date` already resolved (`or date.today()`).  The final
`session_volume.session_count` read happens after `increment_session_count` has
committed and refreshed the identity-mapped row, so it is read from the store. -/
def track_session (db : DB) (current_user : User) (qr_token : String)
    (session_date : PyDate) : TrackResult × DB :=
  if ¬ (current_user.has_role "Trainer" || current_user.has_role "Admin") then
    (.forbidden, db)
  else
    match db.qrByToken qr_token with
    | none => (.notFound, db)
    | some qr_code =>
      match db.userById qr_code.user_id with
      | none => (.customerInactive, db)
      | some customer =>
        if ¬ userIsActive customer then (.customerInactive, db)
        else if (db.sessions.find? (tripleMatch current_user.id qr_code.id session_date)).isSome then
          (.conflict, db)
        else
          let period := session_date.replaceDay1
          let soVol := get_or_create_for_period db current_user.id customer.id period
          let session_volume := soVol.1
          let db1 := soVol.2
          let session_record : SessionTracking :=
            { id := db1.nextId, trainer_id := current_user.id, qr_code_id := qr_code.id,
              session_volume_id := session_volume.id, session_date := session_date }
          let db2 : DB :=
            { db1 with
              sessions := db1.sessions ++ [session_record]
              nextId := db1.nextId + 1 }
          let db3 := increment_session_count db2 session_volume.id
          let storedCount :=
            match db3.volumeById session_volume.id with
            | some v => v.session_count
            | none => session_volume.session_count
          (.success
            { session_id := session_record.id,
              message := "Session recorded for " ++ customer.full_name,
              customer_name := customer.full_name,
              session_date := session_date,
              monthly_volume_id := session_volume.id,
              total_sessions_this_month := storedCount + 1 }, db3)

/-- Outcome of `DELETE /sessions/{session_id}`. -/
inductive DeleteResult where
  | forbidden
  | notFound
  | success
deriving DecidableEq, Repr

/-- `DELETE /sessions/{session_id}` (`delete_session`): admin only; decrement the
owning volume's count, then `session_tracking_crud.remove` — `CRUDBase.remove`,
which deletes the row from the store ("Hard delete a record"). -/
def delete_session (db : DB) (current_user : User) (session_id : Nat) :
    DeleteResult × DB :=
  if ¬ current_user.has_role "Admin" then (.forbidden, db)
  else
    match db.sessionById session_id with
    | none => (.notFound, db)
    | some session_record =>
      let db1 := decrement_session_count db session_record.session_volume_id
      let db2 : DB :=
        { db1 with sessions := db1.sessions.filter (fun s => !(s.id == session_id)) }
      (.success, db2)

/-- Outcome of the workflow endpoints of `app/api/v1/session_volumes.py`. -/
inductive WfResult where
  /-- 404 "Session volume not found". -/
  | notFound
  /-- 403 permission failure. -/
  | forbidden (detail : String)
  /-- 400 failure (invalid transition / missing reason), carrying the detail text. -/
  | badRequest (detail : String)
  /-- 200 `StatusChangeResponse` with `new_status`. -/
  | ok (new_status : VStatus)
deriving DecidableEq, Repr

/-- Whether a workflow call succeeded. -/
def WfResult.isOk : WfResult → Bool
  | .ok _ => true
  | _ => false

/-- `POST /session-volumes/{volume_id}/submit` (`submit_session_volume`). -/
def submit_session_volume (db : DB) (current_user : User) (volume_id : Nat) :
    WfResult × DB :=
  match db.volumeById volume_id with
  | none => (.notFound, db)
  | some volume =>
    if ¬ (current_user.has_role "Admin" || current_user.id == volume.trainer_id) then
      (.forbidden "Only the trainer who created this volume can submit it", db)
    else if volume.status ≠ .draft then
      (.badRequest ("Cannot submit volume with status '" ++ volume.status.text ++
        "'. Only draft volumes can be submitted."), db)
    else
      let v := volume.submit
      (.ok v.status, db.writeVolume volume_id (fun _ => v))

/-- `POST /session-volumes/{volume_id}/approve` (`approve_session_volume`).
`approval_notes` stands for `approval_data.notes` when a body was supplied
(`none` covers both an absent body and absent notes); `today` is
`datetime.utcnow().date()`. -/
def approve_session_volume (db : DB) (current_user : User) (volume_id : Nat)
    (approval_notes : Option String) (today : PyDate) : WfResult × DB :=
  match db.volumeById volume_id with
  | none => (.notFound, db)
  | some volume =>
    if ¬ (current_user.has_role "Admin" || current_user.id == volume.customer_id) then
      (.forbidden "Only the customer can approve their session volume", db)
    else if ¬ (volume.status = .submitted ∨ volume.status = .read) then
      (.badRequest ("Cannot approve volume with status '" ++ volume.status.text ++
        "'. Only submitted or read volumes can be approved."), db)
    else
      let v1 := if volume.status = .submitted then volume.mark_as_read else volume
      let v2 := v1.approve
      let v3 :=
        match approval_notes with
        | some n =>
          if n ≠ "" then
            { v2 with notes := some ((v2.notes.getD "") ++
                "\n--- Customer Approval (" ++ today.isoStr ++ ") ---\n" ++ n) }
          else v2
        | none => v2
      (.ok v3.status, db.writeVolume volume_id (fun _ => v3))

/-- `POST /session-volumes/{volume_id}/reject` (`reject_session_volume`).
`rejection_notes` is `rejection_data.notes`; Python's falsiness check
`if not rejection_data.notes` treats `None` and `""` alike. -/
def reject_session_volume (db : DB) (current_user : User) (volume_id : Nat)
    (rejection_notes : Option String) (today : PyDate) : WfResult × DB :=
  match db.volumeById volume_id with
  | none => (.notFound, db)
  | some volume =>
    if ¬ (current_user.has_role "Admin" || current_user.id == volume.customer_id) then
      (.forbidden "Only the customer can reject their session volume", db)
    else if ¬ (volume.status = .submitted ∨ volume.status = .read) then
      (.badRequest ("Cannot reject volume with status '" ++ volume.status.text ++
        "'. Only submitted or read volumes can be rejected."), db)
    else if rejection_notes = none ∨ rejection_notes = some "" then
      (.badRequest "Rejection reason is required", db)
    else
      let v1 := if volume.status = .submitted then volume.mark_as_read else volume
      let v2 := v1.reject
      let v3 := { v2 with notes := some ((v2.notes.getD "") ++
          "\n--- Customer Rejection (" ++ today.isoStr ++ ") ---\n" ++
          (rejection_notes.getD "")) }
      (.ok v3.status, db.writeVolume volume_id (fun _ => v3))

/-- `POST /session-volumes/{volume_id}/reopen` (`reopen_session_volume`). -/
def reopen_session_volume (db : DB) (current_user : User) (volume_id : Nat)
    (today : PyDate) : WfResult × DB :=
  match db.volumeById volume_id with
  | none => (.notFound, db)
  | some volume =>
    if ¬ (current_user.has_role "Admin" || current_user.id == volume.trainer_id) then
      (.forbidden "Only the trainer who created this volume can reopen it", db)
    else if volume.status ≠ .rejected then
      (.badRequest ("Cannot reopen volume with status '" ++ volume.status.text ++
        "'. Only rejected volumes can be reopened."), db)
    else
      let v1 := volume.reopen
      let v2 := { v1 with notes := some ((v1.notes.getD "") ++
          "\n--- Volume Reopened (" ++ today.isoStr ++ ") ---\nVolume reopened for revision.") }
      (.ok v2.status, db.writeVolume volume_id (fun _ => v2))

/-- `SessionVolumeUpdate` (`app/schemas/session_volume.py`): all fields optional;
`session_count` validated non-negative (hence `Nat`).  A `some` field models a
field present in `obj_in.dict(exclude_unset=True)`. -/
structure SessionVolumeUpdate where
  period : Option PyDate := none
  session_count : Option Nat := none
  plans : Option String := none
  notes : Option String := none
  status : Option VStatus := none
deriving DecidableEq, Repr

/-- `CRUDBase.update`: copy every field present in the update data onto the row. -/
def applyVolumeUpdate (v : SessionVolume) (u : SessionVolumeUpdate) : SessionVolume :=
  { v with
    period := u.period.getD v.period
    session_count := u.session_count.getD v.session_count
    plans := match u.plans with | some p => some p | none => v.plans
    notes := match u.notes with | some n => some n | none => v.notes
    status := u.status.getD v.status }

/-- Outcome of `PUT /session-volumes/{volume_id}`. -/
inductive UpdateResult where
  | notFound
  | forbidden (detail : String)
  | badRequest (detail : String)
  /-- 200, returning the updated volume. -/
  | ok (volume : SessionVolume)
deriving DecidableEq, Repr

/-- `PUT /session-volumes/{volume_id}` (`update_session_volume`): fetch by id (no
deleted filter), trainer-or-admin permission, refuse submitted/read/approved,
then `CRUDBase.update` with the supplied fields. -/
def update_session_volume (db : DB) (current_user : User) (volume_id : Nat)
    (volume_update : SessionVolumeUpdate) : UpdateResult × DB :=
  match db.volumeById volume_id with
  | none => (.notFound, db)
  | some volume =>
    if ¬ (current_user.has_role "Admin" || current_user.id == volume.trainer_id) then
      (.forbidden "Only the trainer who created this volume or admins can update it", db)
    else if volume.status = .submitted ∨ volume.status = .read ∨ volume.status = .approved then
      (.badRequest ("Cannot update volume with status '" ++ volume.status.text ++
        "'. Only draft or rejected volumes can be updated."), db)
    else
      let v := applyVolumeUpdate volume volume_update
      (.ok v, db.writeVolume volume_id (fun _ => v))

/-- The fields of `ScanQRCodeResponse` that the mismatch rule concerns. -/
structure ScanResponse where
  valid : Bool
  message : String
deriving DecidableEq, Repr

/-- `POST /qr-codes/scan` (`scan_qr_code` in `app/api/v1/qr_codes.py`), projected to
the `valid`/`message` fields.  `user.role_name.lower()` is modelled on the reachable
inputs where the scanned user has a role. -/
def scan_qr_code (db : DB) (current_user : User) (token : String) : ScanResponse :=
  match db.qrByToken token with
  | none => { valid := false, message := "Invalid QR code" }
  | some qr_code =>
    match db.userById qr_code.user_id with
    | none => { valid := false, message := "QR code user not found" }
    | some user =>
      if ¬ userIsActive user then
        { valid := false, message := "User account is inactive" }
      else
        let fallback : ScanResponse :=
          { valid := true,
            message := "Valid QR code for " ++ (user.role.getD "").toLower ++ " " ++
              user.full_name }
        if current_user.has_role "Trainer" && user.has_role "Customer" then
          match db.customerByUserId user.id with
          | some customer =>
            match customer.trainer_id with
            | some assigned_id =>
              if assigned_id ≠ current_user.id then
                let trainer_name :=
                  match db.userById assigned_id with
                  | some t => t.full_name
                  | none => "Unknown"
                { valid := true,
                  message := "Warning: This customer is assigned to trainer " ++ trainer_name }
              else fallback
            | none => fallback
          | none => fallback
        else fallback

/-- The derived-count invariant of the spec: every non-deleted Volume's
`session_count` equals the number of stored AttendanceEvents referencing it. -/
def countInvariant (db : DB) : Prop :=
  ∀ v ∈ db.volumes, v.deleted = false → v.session_count = eventCount db v.id

/-- Store well-formedness: ids are below the fresh-id source and primary keys are
unique.  Every state reachable from an empty store satisfies this. -/
def WF (db : DB) : Prop :=
  (∀ v ∈ db.volumes, v.id < db.nextId) ∧
  (∀ s ∈ db.sessions, s.id < db.nextId) ∧
  (∀ s ∈ db.sessions, s.session_volume_id < db.nextId) ∧
  (db.volumes.map SessionVolume.id).Nodup ∧
  (db.sessions.map SessionTracking.id).Nodup

instance (db : DB) : Decidable (countInvariant db) := by
  unfold countInvariant; infer_instance

instance (db : DB) : Decidable (WF db) := by
  unfold WF; infer_instance

/-! Concrete fixture rows used by witnesses and counterexamples: a recorder
(trainer, id 1), a subject (customer, id 2) whose assigned trainer on file is a
different recorder (id 3), an admin (id 4), and the subject's token. -/

/-- Fixture: the scanning trainer. -/
def trainerU : User :=
  { id := 1, email := "tom@x", active := true, deleted := false,
    first_name := some "Tom", last_name := some "Jones", role := some "Trainer" }

/-- Fixture: the scanned customer. -/
def customerU : User :=
  { id := 2, email := "carol@x", active := true, deleted := false,
    first_name := some "Carol", last_name := some "Smith", role := some "Customer" }

/-- Fixture: the customer's assigned trainer on file (a different trainer). -/
def otherTrainerU : User :=
  { id := 3, email := "olga@x", active := true, deleted := false,
    first_name := some "Olga", last_name := some "Nord", role := some "Trainer" }

/-- Fixture: an admin. -/
def adminU : User :=
  { id := 4, email := "ada@x", active := true, deleted := false,
    first_name := none, last_name := none, role := some "Admin" }

/-- Fixture: the customer's QR code. -/
def qrFix : QRCode := { id := 10, user_id := 2, token := "tok" }

/-- Fixture date: 2025-03-05. -/
def dMar5 : PyDate := ⟨2025, 3, 5⟩

/-- Fixture date: 2025-03-06. -/
def dMar6 : PyDate := ⟨2025, 3, 6⟩

/-- Fixture store: users, the token, the mismatching assignment, no volumes, no
events. -/
def dbFix : DB :=
  { users := [trainerU, customerU, otherTrainerU, adminU],
    qr_codes := [qrFix],
    customers := [{ user_id := 2, trainer_id := some 3, deleted := false }],
    volumes := [], sessions := [], nextId := 100 }

/-- Fixture store after the first successful scan: Volume 100 with
`session_count = 1`, AttendanceEvent 101 referencing it. -/
def dbAfterFirstScan : DB := (track_session dbFix trainerU "tok" dMar5).2

/-- The Volume created by the first fixture scan, as stored in `dbAfterFirstScan`. -/
def vol100 : SessionVolume :=
  { id := 100, trainer_id := 1, customer_id := 2, period := ⟨2025, 3, 1⟩,
    session_count := 1, plans := none, notes := none, status := .draft,
    deleted := false }

/-- Fixture store after the trainer submits Volume 100. -/
def dbSubmitted : DB := (submit_session_volume dbAfterFirstScan trainerU 100).2

/-- Volume 100 as stored in `dbSubmitted`. -/
def volSubmitted : SessionVolume := { vol100 with status := VStatus.submitted }


/-- Does `pat` occur at the head of `s`? (character lists) -/
def headOccurs : (pat s : List Char) → Bool
  | [], _ => true
  | _ :: _, [] => false
  | a :: p, b :: t => a == b && headOccurs p t

/-- Does `pat` occur contiguously anywhere in `s`? -/
def occursIn (pat s : List Char) : Bool :=
  headOccurs pat s ||
    match s with
    | [] => false
    | _ :: t => occursIn pat t

/-- `pat` occurs as a contiguous substring of `s`. -/
def strContains (s pat : String) : Bool := occursIn pat.toList s.toList

/-! Helper lemmas about the store model. -/

theorem find?_map_update (l : List SessionVolume) (vid : Nat)
    (f : SessionVolume → SessionVolume) (hf : ∀ v, v.id = vid → (f v).id = vid) :
    (l.map (fun v => if v.id == vid then f v else v)).find? (fun v => v.id == vid) =
      (l.find? (fun v => v.id == vid)).map f := by
  induction l with
  | nil => simp
  | cons a t ih =>
    by_cases h : a.id = vid
    · rw [List.map_cons, if_pos (show ((a).id == vid) = true by simp [h]),
        @List.find?_cons_of_pos _ (fun v => v.id == vid) (f a) _
          (show ((f a).id == vid) = true by simp [hf a h]),
        @List.find?_cons_of_pos _ (fun v => v.id == vid) a _
          (show ((a).id == vid) = true by simp [h])]
      rfl
    · rw [List.map_cons, if_neg (show ¬ ((a).id == vid) = true by simp [h]),
        @List.find?_cons_of_neg _ (fun v => v.id == vid) a _
          (show ¬ ((a).id == vid) = true by simp [h]),
        @List.find?_cons_of_neg _ (fun v => v.id == vid) a _
          (show ¬ ((a).id == vid) = true by simp [h])]
      exact ih

theorem volumeById_writeVolume (db : DB) (vid : Nat) (f : SessionVolume → SessionVolume)
    (hf : ∀ v, v.id = vid → (f v).id = vid) :
    (db.writeVolume vid f).volumeById vid = (db.volumeById vid).map f :=
  find?_map_update db.volumes vid f hf

/-! Characterizations of the workflow endpoints, given the fetched Volume and a
passing permission check. -/

theorem submit_fail (db : DB) (u : User) (vid : Nat) (volume : SessionVolume)
    (hfind : db.volumeById vid = some volume)
    (hperm : (u.has_role "Admin" || u.id == volume.trainer_id) = true)
    (hst : volume.status ≠ VStatus.draft) :
    submit_session_volume db u vid =
      (WfResult.badRequest ("Cannot submit volume with status '" ++ volume.status.text ++
        "'. Only draft volumes can be submitted."), db) := by
  simp [submit_session_volume, hfind, hperm, hst]

theorem submit_ok (db : DB) (u : User) (vid : Nat) (volume : SessionVolume)
    (hfind : db.volumeById vid = some volume)
    (hperm : (u.has_role "Admin" || u.id == volume.trainer_id) = true)
    (hst : volume.status = VStatus.draft) :
    submit_session_volume db u vid =
      (WfResult.ok VStatus.submitted,
        db.writeVolume vid (fun _ => { volume with status := VStatus.submitted })) := by
  simp [submit_session_volume, hfind, hperm, hst, SessionVolume.submit]

theorem approve_fail (db : DB) (u : User) (vid : Nat) (volume : SessionVolume)
    (notes : Option String) (today : PyDate)
    (hfind : db.volumeById vid = some volume)
    (hperm : (u.has_role "Admin" || u.id == volume.customer_id) = true)
    (hst : ¬ (volume.status = VStatus.submitted ∨ volume.status = VStatus.read)) :
    approve_session_volume db u vid notes today =
      (WfResult.badRequest ("Cannot approve volume with status '" ++ volume.status.text ++
        "'. Only submitted or read volumes can be approved."), db) := by
  simp [approve_session_volume, hfind, hperm, hst]

theorem approve_ok (db : DB) (u : User) (vid : Nat) (volume : SessionVolume)
    (today : PyDate)
    (hfind : db.volumeById vid = some volume)
    (hperm : (u.has_role "Admin" || u.id == volume.customer_id) = true)
    (hst : volume.status = VStatus.submitted ∨ volume.status = VStatus.read) :
    approve_session_volume db u vid none today =
      (WfResult.ok VStatus.approved,
        db.writeVolume vid (fun _ => { volume with status := VStatus.approved })) := by
  rcases hst with h | h <;>
    simp [approve_session_volume, hfind, hperm, h, SessionVolume.mark_as_read,
      SessionVolume.approve]

theorem approve_ok_status (db : DB) (u : User) (vid : Nat) (volume : SessionVolume)
    (notes : Option String) (today : PyDate)
    (hfind : db.volumeById vid = some volume)
    (hperm : (u.has_role "Admin" || u.id == volume.customer_id) = true)
    (hst : volume.status = VStatus.submitted ∨ volume.status = VStatus.read) :
    (approve_session_volume db u vid notes today).1 = WfResult.ok VStatus.approved := by
  rcases notes with _ | n
  · rcases hst with h | h <;>
      simp [approve_session_volume, hfind, hperm, h, SessionVolume.mark_as_read,
        SessionVolume.approve]
  · rcases hst with h | h <;> by_cases hn : n = "" <;>
      simp [approve_session_volume, hfind, hperm, h, SessionVolume.mark_as_read,
        SessionVolume.approve, hn]

theorem reject_fail (db : DB) (u : User) (vid : Nat) (volume : SessionVolume)
    (notes : Option String) (today : PyDate)
    (hfind : db.volumeById vid = some volume)
    (hperm : (u.has_role "Admin" || u.id == volume.customer_id) = true)
    (hst : ¬ (volume.status = VStatus.submitted ∨ volume.status = VStatus.read)) :
    reject_session_volume db u vid notes today =
      (WfResult.badRequest ("Cannot reject volume with status '" ++ volume.status.text ++
        "'. Only submitted or read volumes can be rejected."), db) := by
  simp [reject_session_volume, hfind, hperm, hst]

theorem reject_missing_reason (db : DB) (u : User) (vid : Nat) (volume : SessionVolume)
    (notes : Option String) (today : PyDate)
    (hfind : db.volumeById vid = some volume)
    (hperm : (u.has_role "Admin" || u.id == volume.customer_id) = true)
    (hst : volume.status = VStatus.submitted ∨ volume.status = VStatus.read)
    (hn : notes = none ∨ notes = some "") :
    reject_session_volume db u vid notes today =
      (WfResult.badRequest "Rejection reason is required", db) := by
  rcases hst with h | h <;>
    simp [reject_session_volume, hfind, hperm, h, hn]

theorem reject_ok (db : DB) (u : User) (vid : Nat) (volume : SessionVolume)
    (reason : String) (today : PyDate)
    (hfind : db.volumeById vid = some volume)
    (hperm : (u.has_role "Admin" || u.id == volume.customer_id) = true)
    (hst : volume.status = VStatus.submitted ∨ volume.status = VStatus.read)
    (hr : reason ≠ "") :
    reject_session_volume db u vid (some reason) today =
      (WfResult.ok VStatus.rejected,
        db.writeVolume vid (fun _ =>
          { volume with
            status := VStatus.rejected
            notes := some ((volume.notes.getD "") ++
              "\n--- Customer Rejection (" ++ today.isoStr ++ ") ---\n" ++ reason) })) := by
  rcases hst with h | h <;>
    simp [reject_session_volume, hfind, hperm, h, hr, SessionVolume.mark_as_read,
      SessionVolume.reject]

theorem reopen_fail (db : DB) (u : User) (vid : Nat) (volume : SessionVolume)
    (today : PyDate)
    (hfind : db.volumeById vid = some volume)
    (hperm : (u.has_role "Admin" || u.id == volume.trainer_id) = true)
    (hst : volume.status ≠ VStatus.rejected) :
    reopen_session_volume db u vid today =
      (WfResult.badRequest ("Cannot reopen volume with status '" ++ volume.status.text ++
        "'. Only rejected volumes can be reopened."), db) := by
  simp [reopen_session_volume, hfind, hperm, hst]

theorem reopen_ok (db : DB) (u : User) (vid : Nat) (volume : SessionVolume)
    (today : PyDate)
    (hfind : db.volumeById vid = some volume)
    (hperm : (u.has_role "Admin" || u.id == volume.trainer_id) = true)
    (hst : volume.status = VStatus.rejected) :
    reopen_session_volume db u vid today =
      (WfResult.ok VStatus.draft,
        db.writeVolume vid (fun _ =>
          { volume with
            status := VStatus.draft
            notes := some ((volume.notes.getD "") ++
              "\n--- Volume Reopened (" ++ today.isoStr ++
              ") ---\nVolume reopened for revision.") })) := by
  simp [reopen_session_volume, hfind, hperm, hst, SessionVolume.reopen]


/-- **C3** (code bug): the claim — backed by the endpoint's own response field name
`total_sessions_this_month` and by the spec scenario — says a successful record
call reports the Volume's stored `session_count` after insert and update, with the
first scan of a new period reporting 1.  `increment_session_count` commits and
refreshes the identity-mapped `session_volume` row before the response is built,
so `session_volume.session_count + 1` reports the stored count plus one: on the
first scan of a new period exactly one AttendanceEvent is stored and the stored
`session_count` is 1, but the response reports 2. -/
theorem c3_first_scan_reports_two_stores_one :
    (track_session dbFix trainerU "tok" dMar5).1 =
      TrackResult.success
        { session_id := 101, message := "Session recorded for Carol Smith",
          customer_name := "Carol Smith", session_date := dMar5,
          monthly_volume_id := 100, total_sessions_this_month := 2 } ∧
    dbAfterFirstScan.volumeById 100 = some vol100 ∧
    vol100.session_count = 1 ∧
    eventCount dbAfterFirstScan 100 = 1 := by decide

/-- **C8** (code bug): the claim — matching the endpoint docstring "soft delete to
maintain audit trail" — says `DELETE /sessions/{id}` soft-deletes the event so it
remains stored marked as deleted.  `CRUDBase.remove` is a hard delete and the
`session_tracking` model has no `deleted_at` column at all: after deleting fixture
event 101, the sessions table is empty — the row is not retained.  The Volume's
count is clamp-decremented (here from 1 to 0, which coincides with re-derivation). -/
theorem c8_remove_hard_deletes_event :
    (dbAfterFirstScan.sessionById 101).isSome = true ∧
    (delete_session dbAfterFirstScan adminU 101).1 = DeleteResult.success ∧
    (delete_session dbAfterFirstScan adminU 101).2.sessions = [] ∧
    (delete_session dbAfterFirstScan adminU 101).2.sessionById 101 = none ∧
    (delete_session dbAfterFirstScan adminU 101).2.volumeById 100 =
      some { vol100 with session_count := 0 } := by decide

/-- **C2** (counterexample): the claim asserts that at every point between
operations every non-deleted Volume's `session_count` equals the number of
non-deleted AttendanceEvents referencing it.  Starting from a state where the
invariant holds (one event, count 1), a single content-edit call
(`PUT /session-volumes/100` with `session_count = 5`) succeeds and leaves
`session_count = 5` against 1 stored event — the invariant does not hold at every
point between operations. -/
theorem c2_counterexample_direct_count_edit :
    countInvariant dbAfterFirstScan ∧
    (update_session_volume dbAfterFirstScan adminU 100 { session_count := some 5 }).1 =
      UpdateResult.ok { vol100 with session_count := 5 } ∧
    ¬ countInvariant
        (update_session_volume dbAfterFirstScan adminU 100 { session_count := some 5 }).2 := by
  decide

/-- **C10**: for every non-deleted Volume in status draft or rejected, a content
edit (`PUT /session-volumes/{id}`) by the Volume's recorder or an admin whose body
carries `status = s` succeeds and writes `s` directly onto the Volume, bypassing
the transition rules, and `period` and `session_count` are written the same way. -/
theorem c10_content_edit_bypasses_state_machine
    (db : DB) (current_user : User) (vid : Nat) (volume : SessionVolume)
    (p : PyDate) (n : Nat) (s : VStatus)
    (hfind : db.volumeById vid = some volume)
    (_hnd : volume.deleted = false)
    (hperm : current_user.has_role "Admin" = true ∨ current_user.id = volume.trainer_id)
    (hstat : volume.status = VStatus.draft ∨ volume.status = VStatus.rejected) :
    (update_session_volume db current_user vid
        { period := some p, session_count := some n, status := some s }).1 =
      UpdateResult.ok { volume with period := p, session_count := n, status := s } ∧
    (update_session_volume db current_user vid
        { period := some p, session_count := some n, status := some s }).2.volumeById vid =
      some { volume with period := p, session_count := n, status := s } := by
  have hid : volume.id = vid := by
    have := List.find?_some hfind
    simpa using this
  have hpb : (current_user.has_role "Admin" || current_user.id == volume.trainer_id) = true := by
    rcases hperm with h | h <;> simp [h]
  have hsb : ¬ (volume.status = VStatus.submitted ∨ volume.status = VStatus.read ∨
      volume.status = VStatus.approved) := by
    rcases hstat with h | h <;> simp [h]
  have happ : applyVolumeUpdate volume
      { period := some p, session_count := some n, status := some s } =
      { volume with period := p, session_count := n, status := s } := by
    simp [applyVolumeUpdate]
  constructor
  · simp [update_session_volume, hfind, hpb, hsb, happ]
  · have hw := volumeById_writeVolume db vid
      (fun _ => { volume with period := p, session_count := n, status := s })
      (fun v _ => hid)
    simp [update_session_volume, hfind, hpb, hsb, happ, hw]

/-- Witness for the C10 theorem: the fixture's draft Volume is jumped straight to
`approved` with a rewritten period and count. -/
theorem c10_content_edit_witness :
    dbAfterFirstScan.volumeById 100 = some vol100 ∧
    vol100.deleted = false ∧
    vol100.status = VStatus.draft ∧
    (update_session_volume dbAfterFirstScan adminU 100
        { period := some dMar6, session_count := some 42,
          status := some VStatus.approved }).1 =
      UpdateResult.ok
        { vol100 with period := dMar6, session_count := 42, status := VStatus.approved } :=
  ⟨by decide, by decide, by decide,
    (c10_content_edit_bypasses_state_machine dbAfterFirstScan adminU 100 vol100
      dMar6 42 VStatus.approved (by decide) (by decide) (Or.inl (by decide))
      (Or.inl (by decide))).1⟩

/-- **C4**: each workflow transition on a fetched Volume, attempted by an
authorized caller, succeeds exactly when the Volume's current status is in the
transition's allowed source set (submit: draft; approve and reject: submitted or
read; reopen: rejected); from any other status it returns a 400 error whose
detail names the current status, with the store unchanged. -/
theorem c4_transitions_gated_by_status
    (db : DB) (u : User) (vid : Nat) (volume : SessionVolume)
    (notes : Option String) (reason : String) (today : PyDate)
    (hfind : db.volumeById vid = some volume)
    (hpermT : (u.has_role "Admin" || u.id == volume.trainer_id) = true)
    (hpermC : (u.has_role "Admin" || u.id == volume.customer_id) = true)
    (hr : reason ≠ "") :
    (((submit_session_volume db u vid).1.isOk = true) ↔
        volume.status = VStatus.draft) ∧
    (volume.status ≠ VStatus.draft →
      submit_session_volume db u vid =
        (WfResult.badRequest ("Cannot submit volume with status '" ++
          volume.status.text ++ "'. Only draft volumes can be submitted."), db)) ∧
    (((approve_session_volume db u vid notes today).1.isOk = true) ↔
        (volume.status = VStatus.submitted ∨ volume.status = VStatus.read)) ∧
    (¬ (volume.status = VStatus.submitted ∨ volume.status = VStatus.read) →
      approve_session_volume db u vid notes today =
        (WfResult.badRequest ("Cannot approve volume with status '" ++
          volume.status.text ++ "'. Only submitted or read volumes can be approved."), db)) ∧
    (((reject_session_volume db u vid (some reason) today).1.isOk = true) ↔
        (volume.status = VStatus.submitted ∨ volume.status = VStatus.read)) ∧
    (¬ (volume.status = VStatus.submitted ∨ volume.status = VStatus.read) →
      reject_session_volume db u vid (some reason) today =
        (WfResult.badRequest ("Cannot reject volume with status '" ++
          volume.status.text ++ "'. Only submitted or read volumes can be rejected."), db)) ∧
    (((reopen_session_volume db u vid today).1.isOk = true) ↔
        volume.status = VStatus.rejected) ∧
    (volume.status ≠ VStatus.rejected →
      reopen_session_volume db u vid today =
        (WfResult.badRequest ("Cannot reopen volume with status '" ++
          volume.status.text ++ "'. Only rejected volumes can be reopened."), db)) := by
  refine ⟨⟨?_, ?_⟩, ?_, ⟨?_, ?_⟩, ?_, ⟨?_, ?_⟩, ?_, ⟨?_, ?_⟩, ?_⟩
  · intro h
    by_contra hst
    rw [submit_fail db u vid volume hfind hpermT hst] at h
    simp [WfResult.isOk] at h
  · intro hst
    rw [submit_ok db u vid volume hfind hpermT hst]
    rfl
  · exact fun hst => submit_fail db u vid volume hfind hpermT hst
  · intro h
    by_contra hst
    rw [approve_fail db u vid volume notes today hfind hpermC hst] at h
    simp [WfResult.isOk] at h
  · intro hst
    rw [approve_ok_status db u vid volume notes today hfind hpermC hst]
    rfl
  · exact fun hst => approve_fail db u vid volume notes today hfind hpermC hst
  · intro h
    by_contra hst
    rw [reject_fail db u vid volume (some reason) today hfind hpermC hst] at h
    simp [WfResult.isOk] at h
  · intro hst
    rw [reject_ok db u vid volume reason today hfind hpermC hst hr]
    rfl
  · exact fun hst => reject_fail db u vid volume (some reason) today hfind hpermC hst
  · intro h
    by_contra hst
    rw [reopen_fail db u vid volume today hfind hpermT hst] at h
    simp [WfResult.isOk] at h
  · intro hst
    rw [reopen_ok db u vid volume today hfind hpermT hst]
    rfl
  · exact fun hst => reopen_fail db u vid volume today hfind hpermT hst

/-- Witness for the C4 theorem at the submitted fixture Volume: submit is not
allowed from `submitted` while approve is. -/
theorem c4_transitions_witness :
    dbSubmitted.volumeById 100 = some volSubmitted ∧
    (((submit_session_volume dbSubmitted adminU 100).1.isOk = true) ↔
      volSubmitted.status = VStatus.draft) :=
  ⟨by decide,
    (c4_transitions_gated_by_status dbSubmitted adminU 100 volSubmitted none "r" dMar6
      (by decide) (by decide) (by decide) (by decide)).1⟩

/-- **C5**: on a Volume with status `submitted`, one approve call by the subject
or an admin auto-marks the Volume as read and ends with status `approved` (the
model-level `mark_as_read` produces `read` and `approve` then produces
`approved`, all inside the single call); an approve call on a `draft` Volume
fails with a 400 naming the draft status, and the store — hence the Volume's
status — is unchanged. -/
theorem c5_approve_passes_through_read
    (db : DB) (u : User) (vid : Nat) (volume : SessionVolume) (today : PyDate)
    (hfind : db.volumeById vid = some volume)
    (hperm : (u.has_role "Admin" || u.id == volume.customer_id) = true) :
    (volume.status = VStatus.submitted →
      volume.mark_as_read.status = VStatus.read ∧
      volume.mark_as_read.approve.status = VStatus.approved ∧
      approve_session_volume db u vid none today =
        (WfResult.ok VStatus.approved,
          db.writeVolume vid (fun _ => { volume with status := VStatus.approved })) ∧
      (approve_session_volume db u vid none today).2.volumeById vid =
        some { volume with status := VStatus.approved }) ∧
    (volume.status = VStatus.draft →
      approve_session_volume db u vid none today =
        (WfResult.badRequest ("Cannot approve volume with status '" ++
          volume.status.text ++ "'. Only submitted or read volumes can be approved."), db)) := by
  have hid : volume.id = vid := by
    have := List.find?_some hfind
    simpa using this
  constructor
  · intro hst
    have hok := approve_ok db u vid volume today hfind hperm (Or.inl hst)
    refine ⟨by simp [SessionVolume.mark_as_read, hst], ?_, hok, ?_⟩
    · simp [SessionVolume.mark_as_read, SessionVolume.approve, hst]
    · rw [hok]
      have hw := volumeById_writeVolume db vid
        (fun _ => { volume with status := VStatus.approved }) (fun v _ => hid)
      rw [hw, hfind]
      rfl
  · intro hst
    exact approve_fail db u vid volume none today hfind hperm (by simp [hst])

/-- Witness for the C5 theorem: the customer approves the submitted fixture
Volume; the one call lands on `approved`. -/
theorem c5_approve_witness :
    approve_session_volume dbSubmitted customerU 100 none dMar6 =
      (WfResult.ok VStatus.approved,
        dbSubmitted.writeVolume 100
          (fun _ => { volSubmitted with status := VStatus.approved })) :=
  ((c5_approve_passes_through_read dbSubmitted customerU 100 volSubmitted dMar6
    (by decide) (by decide)).1 (by decide)).2.2.1

/-- **C6**: on a Volume with status submitted or read, a reject call without a
reason note (absent or empty) fails with 400 "Rejection reason is required" and
the store is unchanged; a reject call with a reason sets the status to
`rejected` and the stored notes field becomes the previous notes with the
supplied reason appended under a timestamped "Customer Rejection" header. -/
theorem c6_reject_requires_reason
    (db : DB) (u : User) (vid : Nat) (volume : SessionVolume)
    (reason : String) (today : PyDate)
    (hfind : db.volumeById vid = some volume)
    (hperm : (u.has_role "Admin" || u.id == volume.customer_id) = true)
    (hst : volume.status = VStatus.submitted ∨ volume.status = VStatus.read)
    (hr : reason ≠ "") :
    reject_session_volume db u vid none today =
      (WfResult.badRequest "Rejection reason is required", db) ∧
    reject_session_volume db u vid (some "") today =
      (WfResult.badRequest "Rejection reason is required", db) ∧
    reject_session_volume db u vid (some reason) today =
      (WfResult.ok VStatus.rejected,
        db.writeVolume vid (fun _ =>
          { volume with
            status := VStatus.rejected
            notes := some ((volume.notes.getD "") ++
              "\n--- Customer Rejection (" ++ today.isoStr ++ ") ---\n" ++ reason) })) ∧
    (reject_session_volume db u vid (some reason) today).2.volumeById vid =
      some { volume with
             status := VStatus.rejected
             notes := some ((volume.notes.getD "") ++
               "\n--- Customer Rejection (" ++ today.isoStr ++ ") ---\n" ++ reason) } := by
  have hid : volume.id = vid := by
    have := List.find?_some hfind
    simpa using this
  have hok := reject_ok db u vid volume reason today hfind hperm hst hr
  refine ⟨reject_missing_reason db u vid volume none today hfind hperm hst (Or.inl rfl),
    reject_missing_reason db u vid volume (some "") today hfind hperm hst (Or.inr rfl),
    hok, ?_⟩
  rw [hok]
  have hw := volumeById_writeVolume db vid
    (fun _ =>
      { volume with
        status := VStatus.rejected
        notes := some ((volume.notes.getD "") ++
          "\n--- Customer Rejection (" ++ today.isoStr ++ ") ---\n" ++ reason) })
    (fun v _ => hid)
  rw [hw, hfind]
  rfl

/-- Witness for the C6 theorem: rejecting the submitted fixture Volume without a
reason fails as required. -/
theorem c6_reject_witness :
    reject_session_volume dbSubmitted customerU 100 none dMar6 =
      (WfResult.badRequest "Rejection reason is required", dbSubmitted) :=
  (c6_reject_requires_reason dbSubmitted customerU 100 volSubmitted "needs adjustment"
    dMar6 (by decide) (by decide) (Or.inl (by decide)) (by decide)).1


theorem find?_of_filter_eq_singleton {α : Type} (l : List α) (p : α → Bool) (a : α)
    (h : l.filter p = [a]) : l.find? p = some a := by
  induction l with
  | nil => simp at h
  | cons b t ih =>
    by_cases hp : p b = true
    · rw [List.filter_cons_of_pos hp] at h
      obtain ⟨rfl, -⟩ := List.cons.inj h
      exact List.find?_cons_of_pos t hp
    · rw [List.filter_cons_of_neg hp] at h
      rw [List.find?_cons_of_neg t hp]
      exact ih h

/-- **C7**: Volume get-or-create is idempotent on a store holding at most one
non-deleted Volume for the key: an existing non-deleted Volume for
`(recorder, subject, period)` is returned unchanged; otherwise a fresh Volume
with status draft and `session_count = 0` is appended; a second sequential call
with the same key returns the very same Volume and changes nothing, and exactly
one non-deleted Volume for the key exists afterwards. -/
theorem c7_get_or_create_idempotent
    (db : DB) (t c : Nat) (p : PyDate)
    (hatmost : keyCount db t c p ≤ 1) :
    get_or_create_for_period (get_or_create_for_period db t c p).2 t c p =
      ((get_or_create_for_period db t c p).1, (get_or_create_for_period db t c p).2) ∧
    keyCount (get_or_create_for_period db t c p).2 t c p = 1 ∧
    (∀ v, db.volumes.find? (keyMatch t c p) = some v →
      get_or_create_for_period db t c p = (v, db)) ∧
    (db.volumes.find? (keyMatch t c p) = none →
      (get_or_create_for_period db t c p).1.status = VStatus.draft ∧
      (get_or_create_for_period db t c p).1.session_count = 0 ∧
      (get_or_create_for_period db t c p).2.volumes =
        db.volumes ++ [(get_or_create_for_period db t c p).1]) := by
  rcases h : db.volumes.find? (keyMatch t c p) with _ | v
  · -- no existing Volume: one is created; the second call finds it
    have hnil : db.volumes.filter (keyMatch t c p) = [] := by
      rw [List.filter_eq_nil_iff]
      exact List.find?_eq_none.mp h
    have hpred : keyMatch t c p
        { id := db.nextId, trainer_id := t, customer_id := c, period := p,
          session_count := 0, plans := none, notes := none,
          status := VStatus.draft, deleted := false } = true := by
      simp [keyMatch]
    refine ⟨?_, ?_, ?_, ?_⟩
    · simp only [get_or_create_for_period, h]
      rw [List.find?_append, h]
      simp [hpred]
    · simp only [get_or_create_for_period, h, keyCount]
      rw [List.filter_append, hnil]
      simp [hpred]
    · intro v hv
      simp [h] at hv
    · intro _
      simp [get_or_create_for_period, h]
  · -- an existing Volume: it is returned unchanged by both calls
    have hmemf : v ∈ db.volumes.filter (keyMatch t c p) :=
      List.mem_filter.mpr ⟨List.mem_of_find?_eq_some h, List.find?_some h⟩
    have hpos : 0 < keyCount db t c p := by
      simpa [keyCount] using List.length_pos.mpr (List.ne_nil_of_mem hmemf)
    have hone : keyCount db t c p = 1 := by omega
    refine ⟨?_, ?_, ?_, ?_⟩
    · simp [get_or_create_for_period, h]
    · simpa [get_or_create_for_period, h] using hone
    · intro v' hv'
      obtain rfl := Option.some.inj hv'
      simp [get_or_create_for_period, h]
    · intro hnone
      exact absurd hnone (by simp)


/-- Witness for the C7 theorem: starting from the fixture store with no Volumes,
after one get-or-create call exactly one Volume exists for the key. -/
theorem c7_get_or_create_witness :
    keyCount dbFix 1 2 ⟨2025, 3, 1⟩ ≤ 1 ∧
    keyCount (get_or_create_for_period dbFix 1 2 ⟨2025, 3, 1⟩).2 1 2 ⟨2025, 3, 1⟩ = 1 :=
  ⟨by decide, (c7_get_or_create_idempotent dbFix 1 2 ⟨2025, 3, 1⟩ (by decide)).2.1⟩

/-- **C1**: when a (non-deleted — the event model has no deletion flag, so all
stored events count) AttendanceEvent already exists for the caller's
`(recorder, token, date)` triple, the record call returns the 409 Conflict
result and leaves the store untouched: afterwards exactly one AttendanceEvent
exists for the triple and every Volume — hence its `session_count` — is
unchanged. -/
theorem c1_duplicate_scan_conflict
    (db : DB) (u : User) (token : String) (d : PyDate) (qr : QRCode) (cust : User)
    (hrole : u.has_role "Trainer" = true ∨ u.has_role "Admin" = true)
    (hqr : db.qrByToken token = some qr)
    (hcust : db.userById qr.user_id = some cust)
    (hact : userIsActive cust = true)
    (hone : tripleCount db u.id qr.id d = 1) :
    track_session db u token d = (TrackResult.conflict, db) ∧
    tripleCount (track_session db u token d).2 u.id qr.id d = 1 ∧
    (track_session db u token d).2.volumes = db.volumes := by
  have hex : (db.sessions.find? (tripleMatch u.id qr.id d)).isSome = true := by
    rw [List.find?_isSome]
    have hpos : 0 < (db.sessions.filter (tripleMatch u.id qr.id d)).length := by
      have : (db.sessions.filter (tripleMatch u.id qr.id d)).length = 1 := hone
      omega
    obtain ⟨x, hx⟩ := List.exists_mem_of_length_pos hpos
    exact ⟨x, (List.mem_filter.mp hx).1, (List.mem_filter.mp hx).2⟩
  have hroleb : (u.has_role "Trainer" || u.has_role "Admin") = true := by
    rcases hrole with h | h <;> simp [h]
  have main : track_session db u token d = (TrackResult.conflict, db) := by
    simp [track_session, hroleb, hqr, hcust, hact, hex]
  refine ⟨main, ?_, ?_⟩ <;> rw [main]
  exact hone

/-- Witness for the C1 theorem: repeating the fixture scan on the same day is
rejected with Conflict and changes nothing. -/
theorem c1_duplicate_scan_witness :
    tripleCount dbAfterFirstScan 1 10 dMar5 = 1 ∧
    track_session dbAfterFirstScan trainerU "tok" dMar5 =
      (TrackResult.conflict, dbAfterFirstScan) :=
  ⟨by decide,
    (c1_duplicate_scan_conflict dbAfterFirstScan trainerU "tok" dMar5 qrFix customerU
      (Or.inl (by decide)) (by decide) (by decide) (by decide) (by decide)).1⟩

/-- The record endpoint never reads the `customers` table: its response is
independent of the subject's assigned-recorder record. -/
theorem track_response_ignores_customers
    (db : DB) (cs : List Customer) (u : User) (tok : String) (d : PyDate) :
    (track_session { db with customers := cs } u tok d).1 =
      (track_session db u tok d).1 := by
  by_cases hrole : (u.has_role "Trainer" || u.has_role "Admin") = true
  · rcases hq : db.qr_codes.find? (fun q => q.token == tok) with _ | qr
    · simp [track_session, DB.qrByToken, hrole, hq]
    · rcases hu : db.users.find? (fun x => x.id == qr.user_id) with _ | cust
      · simp [track_session, DB.qrByToken, DB.userById, hrole, hq, hu]
      · by_cases hact : userIsActive cust = true
        · by_cases hdup : (db.sessions.find? (tripleMatch u.id qr.id d)).isSome = true
          · simp [track_session, DB.qrByToken, DB.userById, hrole, hq, hu, hact, hdup]
          · rcases hv : db.volumes.find? (keyMatch u.id cust.id d.replaceDay1) with _ | v
            · rcases hw : db.volumes.find? (fun v => v.id == db.nextId) with _ | w <;>
                simp [track_session, DB.qrByToken, DB.userById, DB.volumeById, DB.writeVolume,
                  get_or_create_for_period, increment_session_count, hrole, hq, hu, hact,
                  hdup, hv, hw]
            · rcases hw : db.volumes.find? (fun x => x.id == v.id) with _ | w <;>
                simp [track_session, DB.qrByToken, DB.userById, DB.volumeById, DB.writeVolume,
                  get_or_create_for_period, increment_session_count, hrole, hq, hu, hact,
                  hdup, hv, hw]
        · simp [track_session, DB.qrByToken, DB.userById, hrole, hq, hu, hact]
  · simp [track_session, hrole]

/-- **C9** (counterexample): in the fixture store the subject's assigned recorder
on file is trainer 3 while trainer 1 records the scan.  The record call
succeeds, but its response is byte-identical to the response produced when the
assignment matches the caller — it carries no mismatch annotation (and the word
"Warning" does not occur in its message). -/
theorem c9_counterexample_no_warning_in_track :
    (track_session dbFix trainerU "tok" dMar5).1 =
      TrackResult.success
        { session_id := 101, message := "Session recorded for Carol Smith",
          customer_name := "Carol Smith", session_date := dMar5,
          monthly_volume_id := 100, total_sessions_this_month := 2 } ∧
    (track_session
        { dbFix with customers := [{ user_id := 2, trainer_id := some 1, deleted := false }] }
        trainerU "tok" dMar5).1 =
      (track_session dbFix trainerU "tok" dMar5).1 ∧
    strContains "Session recorded for Carol Smith" "Warning" = false := by decide

/-- **C9** (amended): a record call whose resolved subject has a different
assigned recorder on file still succeeds — the AttendanceEvent is created and
counted — but the record response carries no mismatch annotation: it does not
depend on the assigned-recorder table at all.  The mismatch warning is produced
only by the separate validation endpoint `POST /qr-codes/scan`. -/
theorem c9_mismatch_warning_only_in_scan :
    (∀ (db : DB) (cs : List Customer) (u : User) (tok : String) (d : PyDate),
      (track_session { db with customers := cs } u tok d).1 =
        (track_session db u tok d).1) ∧
    eventCount dbAfterFirstScan 100 = 1 ∧
    dbAfterFirstScan.volumeById 100 = some vol100 ∧
    scan_qr_code dbFix trainerU "tok" =
      { valid := true,
        message := "Warning: This customer is assigned to trainer Olga Nord" } ∧
    strContains (scan_qr_code dbFix trainerU "tok").message "Warning" = true :=
  ⟨fun db cs u tok d => track_response_ignores_customers db cs u tok d,
    by decide, by decide, by decide, by decide⟩

/-! Preservation of the derived-count invariant by the record and remove
operations. -/

theorem length_filter_split {α : Type} (l : List α) (p q : α → Bool) :
    (l.filter p).length =
      (l.filter (fun a => p a && q a)).length +
        (l.filter (fun a => p a && !(q a))).length := by
  induction l with
  | nil => simp
  | cons a t ih =>
    by_cases hp : p a = true <;> by_cases hq : q a = true <;>
      simp [hp, hq, ih] <;> omega

theorem length_filter_unique_id {α : Type} (l : List α) (idf : α → Nat)
    (hnd : (l.map idf).Nodup) (s : α) (hs : s ∈ l) (p : α → Bool) :
    (l.filter (fun a => p a && (idf a == idf s))).length = if p s then 1 else 0 := by
  induction l with
  | nil => simp at hs
  | cons a t ih =>
    rw [List.map_cons, List.nodup_cons] at hnd
    rcases List.mem_cons.mp hs with rfl | hst
    · have htail : t.filter (fun b => p b && (idf b == idf s)) = [] := by
        rw [List.filter_eq_nil_iff]
        intro b hb
        have : idf b ≠ idf s := fun he => hnd.1 (he ▸ List.mem_map_of_mem idf hb)
        simp [this]
      by_cases hp : p s = true <;> simp [List.filter_cons, hp, htail]
    · have hne : idf a ≠ idf s := by
        intro he
        exact hnd.1 (he ▸ List.mem_map_of_mem idf hst)
      rw [List.filter_cons_of_neg (by simp [hne])]
      exact ih hnd.2 hst

theorem removed_row_count (l : List SessionTracking)
    (hnd : (l.map SessionTracking.id).Nodup) (s : SessionTracking) (hs : s ∈ l)
    (x : Nat) :
    (l.filter (fun t => t.session_volume_id == x)).length =
      (if s.session_volume_id == x then 1 else 0) +
        ((l.filter (fun t => !(t.id == s.id))).filter
          (fun t => t.session_volume_id == x)).length := by
  have hsplit := length_filter_split l
    (fun t => t.session_volume_id == x) (fun t => t.id == s.id)
  have huniq := length_filter_unique_id l SessionTracking.id hnd s hs
    (fun t => t.session_volume_id == x)
  rw [List.filter_filter]
  by_cases hsx : (s.session_volume_id == x) = true
  · simp only [hsx, if_true] at huniq ⊢
    omega
  · simp only [hsx, if_false, Bool.false_eq_true] at huniq ⊢
    omega

theorem countList_append (l : List SessionTracking) (e : SessionTracking) (x : Nat) :
    ((l ++ [e]).filter (fun s => s.session_volume_id == x)).length =
      (l.filter (fun s => s.session_volume_id == x)).length +
        (if e.session_volume_id = x then 1 else 0) := by
  rw [List.filter_append]
  by_cases h : e.session_volume_id = x <;> simp [h]

theorem map_id_of_bump (l : List SessionVolume) (vid : Nat)
    (f : SessionVolume → SessionVolume) (hf : ∀ w, (f w).id = w.id) :
    (l.map (fun w => if w.id == vid then f w else w)).map SessionVolume.id =
      l.map SessionVolume.id := by
  rw [List.map_map]
  refine List.map_congr_left ?_
  intro a _
  by_cases h : a.id = vid <;> simp [h, hf]

theorem delete_preserves (db : DB) (hwf : WF db) (hinv : countInvariant db)
    (u : User) (sid : Nat) :
    WF (delete_session db u sid).2 ∧ countInvariant (delete_session db u sid).2 := by
  obtain ⟨hwv, hws, hwsv, hndv, hnds⟩ := hwf
  by_cases hrole : u.has_role "Admin" = true
  case neg =>
    have hres : (delete_session db u sid).2 = db := by
      simp [delete_session, hrole]
    rw [hres]
    exact ⟨⟨hwv, hws, hwsv, hndv, hnds⟩, hinv⟩
  case pos =>
    rcases hs : db.sessions.find? (fun t => t.id == sid) with _ | s
    · have hres : (delete_session db u sid).2 = db := by
        simp [delete_session, DB.sessionById, hrole, hs]
      rw [hres]
      exact ⟨⟨hwv, hws, hwsv, hndv, hnds⟩, hinv⟩
    · have hsmem : s ∈ db.sessions := List.mem_of_find?_eq_some hs
      have hsid : s.id = sid := by simpa using List.find?_some hs
      subst hsid
      have star := removed_row_count db.sessions hnds s hsmem
      have hsess_wf : ∀ t ∈ db.sessions.filter (fun t => !(t.id == s.id)),
          t ∈ db.sessions := fun t ht => List.mem_of_mem_filter ht
      have hsess_nd : ((db.sessions.filter (fun t => !(t.id == s.id))).map
          SessionTracking.id).Nodup :=
        List.Nodup.sublist (List.Sublist.map _ (List.filter_sublist db.sessions)) hnds
      -- invariant transfer for a volume whose id is not the removed event's volume
      have huntouched : ∀ w : SessionVolume, w ∈ db.volumes → w.deleted = false →
          w.id ≠ s.session_volume_id →
          w.session_count =
            ((db.sessions.filter (fun t => !(t.id == s.id))).filter
              (fun t => t.session_volume_id == w.id)).length := by
        intro w hw hwd hne
        have hsx : (s.session_volume_id == w.id) = false :=
          beq_eq_false_iff_ne.mpr (fun h => hne h.symm)
        have hstar := star w.id
        rw [hsx] at hstar
        simp only [Bool.false_eq_true, if_false] at hstar
        have hcnt := hinv w hw hwd
        have hcnt2 : w.session_count =
            (db.sessions.filter (fun t => t.session_volume_id == w.id)).length := hcnt
        omega
      rcases hv : db.volumes.find? (fun v => v.id == s.session_volume_id) with _ | v0
      · -- no volume row carries the event's volume id
        have hres : (delete_session db u s.id).2 =
            { db with sessions := db.sessions.filter (fun t => !(t.id == s.id)) } := by
          simp [delete_session, DB.sessionById, hrole, hs, decrement_session_count,
            DB.volumeById, hv]
        rw [hres]
        refine ⟨⟨fun v hvm => hwv v hvm, fun t ht => hws t (hsess_wf t ht),
          fun t ht => hwsv t (hsess_wf t ht), hndv, hsess_nd⟩, ?_⟩
        intro w hw hwd
        have hne : w.id ≠ s.session_volume_id := by
          simpa using List.find?_eq_none.mp hv w hw
        exact huntouched w hw hwd hne
      · have hv0mem : v0 ∈ db.volumes := List.mem_of_find?_eq_some hv
        have hv0id : v0.id = s.session_volume_id := by simpa using List.find?_some hv
        by_cases hc : v0.session_count > 0
        · -- decrement applies, then the row is removed
          have hres : (delete_session db u s.id).2 =
              { db with
                volumes := db.volumes.map (fun w =>
                  if w.id == s.session_volume_id then
                    { w with session_count := w.session_count - 1 } else w)
                sessions := db.sessions.filter (fun t => !(t.id == s.id)) } := by
            simp [delete_session, DB.sessionById, hrole, hs, decrement_session_count,
              DB.volumeById, hv, hc, DB.writeVolume]
          rw [hres]
          refine ⟨⟨?_, fun t ht => hws t (hsess_wf t ht),
            fun t ht => hwsv t (hsess_wf t ht), ?_, hsess_nd⟩, ?_⟩
          · intro w hw
            obtain ⟨w0, hw0, rfl⟩ := List.mem_map.mp hw
            have : (if w0.id == s.session_volume_id then
                { w0 with session_count := w0.session_count - 1 } else w0).id = w0.id := by
              by_cases h : w0.id = s.session_volume_id <;> simp [h]
            rw [this]
            exact hwv w0 hw0
          · rw [map_id_of_bump db.volumes s.session_volume_id
              (fun w => { w with session_count := w.session_count - 1 }) (fun w => rfl)]
            exact hndv
          · intro w hw hwd
            obtain ⟨w0, hw0, rfl⟩ := List.mem_map.mp hw
            by_cases hwid : w0.id = s.session_volume_id
            · have hbump : (if w0.id == s.session_volume_id then
                  { w0 with session_count := w0.session_count - 1 } else w0) =
                  { w0 with session_count := w0.session_count - 1 } := by simp [hwid]
              rw [hbump] at hwd ⊢
              have hcnt := hinv w0 hw0 hwd
              have hsx : (s.session_volume_id == w0.id) = true := by simp [hwid]
              have hstar := star w0.id
              rw [hsx] at hstar
              simp only [if_true] at hstar
              have hcnt2 : w0.session_count =
                  (db.sessions.filter (fun t => t.session_volume_id == w0.id)).length :=
                hcnt
              show w0.session_count - 1 = _
              simp only [eventCount]
              omega
            · have hbump : (if w0.id == s.session_volume_id then
                  { w0 with session_count := w0.session_count - 1 } else w0) = w0 := by
                simp [hwid]
              rw [hbump] at hwd ⊢
              exact huntouched w0 hw0 hwd hwid
        · -- found volume's counter is already 0: no decrement happens
          have hc0 : v0.session_count = 0 := by omega
          have hres : (delete_session db u s.id).2 =
              { db with sessions := db.sessions.filter (fun t => !(t.id == s.id)) } := by
            simp [delete_session, DB.sessionById, hrole, hs, decrement_session_count,
              DB.volumeById, hv, hc]
          rw [hres]
          refine ⟨⟨fun v hvm => hwv v hvm, fun t ht => hws t (hsess_wf t ht),
            fun t ht => hwsv t (hsess_wf t ht), hndv, hsess_nd⟩, ?_⟩
          intro w hw hwd
          refine huntouched w hw hwd (fun hwid => ?_)
          -- if a non-deleted volume carried this id it would equal v0, whose counter
          -- is 0 while at least one event references it: contradiction with hinv
          have hweq : w = v0 :=
            List.inj_on_of_nodup_map hndv hw hv0mem (by rw [hwid, hv0id])
          have hcnt := hinv w hw hwd
          have hpos : 0 < (db.sessions.filter
              (fun t => t.session_volume_id == w.id)).length := by
            have hsmem2 : s ∈ db.sessions.filter
                (fun t => t.session_volume_id == w.id) :=
              List.mem_filter.mpr ⟨hsmem, by simp [hwid]⟩
            exact List.length_pos.mpr (List.ne_nil_of_mem hsmem2)
          have : w.session_count = 0 := by rw [hweq, hc0]
          have hcnt2 : w.session_count =
              (db.sessions.filter (fun t => t.session_volume_id == w.id)).length := hcnt
          omega

theorem track_preserves (db : DB) (hwf : WF db) (hinv : countInvariant db)
    (u : User) (tok : String) (d : PyDate) :
    WF (track_session db u tok d).2 ∧ countInvariant (track_session db u tok d).2 := by
  obtain ⟨hwv, hws, hwsv, hndv, hnds⟩ := hwf
  by_cases hrole : (u.has_role "Trainer" || u.has_role "Admin") = true
  case neg =>
    have hres : (track_session db u tok d).2 = db := by simp [track_session, hrole]
    rw [hres]
    exact ⟨⟨hwv, hws, hwsv, hndv, hnds⟩, hinv⟩
  case pos =>
    rcases hq : db.qr_codes.find? (fun q => q.token == tok) with _ | qr
    · have hres : (track_session db u tok d).2 = db := by
        simp [track_session, DB.qrByToken, hrole, hq]
      rw [hres]
      exact ⟨⟨hwv, hws, hwsv, hndv, hnds⟩, hinv⟩
    · rcases hu : db.users.find? (fun x => x.id == qr.user_id) with _ | cust
      · have hres : (track_session db u tok d).2 = db := by
          simp [track_session, DB.qrByToken, DB.userById, hrole, hq, hu]
        rw [hres]
        exact ⟨⟨hwv, hws, hwsv, hndv, hnds⟩, hinv⟩
      · by_cases hact : userIsActive cust = true
        case neg =>
          have hres : (track_session db u tok d).2 = db := by
            simp [track_session, DB.qrByToken, DB.userById, hrole, hq, hu, hact]
          rw [hres]
          exact ⟨⟨hwv, hws, hwsv, hndv, hnds⟩, hinv⟩
        case pos =>
          by_cases hdup : (db.sessions.find? (tripleMatch u.id qr.id d)).isSome = true
          · have hres : (track_session db u tok d).2 = db := by
              simp [track_session, DB.qrByToken, DB.userById, hrole, hq, hu, hact, hdup]
            rw [hres]
            exact ⟨⟨hwv, hws, hwsv, hndv, hnds⟩, hinv⟩
          · rcases hv : db.volumes.find? (keyMatch u.id cust.id d.replaceDay1) with _ | v
            · -- first scan of the period: a fresh Volume is created, then bumped to 1
              have hnone : db.volumes.find? (fun w => w.id == db.nextId) = none :=
                List.find?_eq_none.mpr (fun a ha => by
                  have := hwv a ha
                  simp only [beq_iff_eq]
                  omega)
              have hres : (track_session db u tok d).2 =
                  { db with
                    volumes := (db.volumes ++
                      [({ id := db.nextId, trainer_id := u.id, customer_id := cust.id,
                          period := d.replaceDay1, session_count := 0, plans := none,
                          notes := none, status := VStatus.draft,
                          deleted := false } : SessionVolume)]).map
                      (fun w => if w.id == db.nextId then
                        { w with session_count := w.session_count + 1 } else w)
                    sessions := db.sessions ++
                      [{ id := db.nextId + 1, trainer_id := u.id, qr_code_id := qr.id,
                         session_volume_id := db.nextId, session_date := d }]
                    nextId := db.nextId + 1 + 1 } := by
                simp [track_session, DB.qrByToken, DB.userById, hrole, hq, hu, hact, hdup,
                  get_or_create_for_period, hv, increment_session_count, DB.volumeById,
                  List.find?_append, hnone, DB.writeVolume]
              rw [hres]
              constructor
              · refine ⟨?_, ?_, ?_, ?_, ?_⟩
                · intro w hw
                  obtain ⟨w0, hw0, rfl⟩ := List.mem_map.mp hw
                  have hid : (if w0.id == db.nextId then
                      { w0 with session_count := w0.session_count + 1 } else w0).id =
                      w0.id := by
                    by_cases h : w0.id = db.nextId <;> simp [h]
                  rw [hid]
                  show w0.id < db.nextId + 1 + 1
                  rcases List.mem_append.mp hw0 with h | h
                  · have := hwv w0 h
                    omega
                  · simp only [List.mem_singleton] at h
                    subst h
                    show db.nextId < db.nextId + 1 + 1
                    omega
                · intro t ht
                  show t.id < db.nextId + 1 + 1
                  rcases List.mem_append.mp ht with h | h
                  · have := hws t h
                    omega
                  · simp only [List.mem_singleton] at h
                    subst h
                    show db.nextId + 1 < db.nextId + 1 + 1
                    omega
                · intro t ht
                  show t.session_volume_id < db.nextId + 1 + 1
                  rcases List.mem_append.mp ht with h | h
                  · have := hwsv t h
                    omega
                  · simp only [List.mem_singleton] at h
                    subst h
                    show db.nextId < db.nextId + 1 + 1
                    omega
                · rw [map_id_of_bump _ db.nextId
                    (fun w => { w with session_count := w.session_count + 1 })
                    (fun w => rfl)]
                  rw [List.map_append, List.nodup_append]
                  refine ⟨hndv, by simp, ?_⟩
                  simp only [List.map_cons, List.map_nil, List.disjoint_singleton]
                  intro hmem
                  obtain ⟨a, ha, haid⟩ := List.mem_map.mp hmem
                  have := hwv a ha
                  omega
                · rw [List.map_append, List.nodup_append]
                  refine ⟨hnds, by simp, ?_⟩
                  simp only [List.map_cons, List.map_nil, List.disjoint_singleton]
                  intro hmem
                  obtain ⟨a, ha, haid⟩ := List.mem_map.mp hmem
                  have := hws a ha
                  omega
              · intro w hw hwd
                obtain ⟨w0, hw0, rfl⟩ := List.mem_map.mp hw
                rcases List.mem_append.mp hw0 with h | h
                · -- an old volume: id below nextId, untouched, count per hinv
                  have hlt := hwv w0 h
                  have hbump : (if w0.id == db.nextId then
                      { w0 with session_count := w0.session_count + 1 } else w0) = w0 := by
                    have : w0.id ≠ db.nextId := by omega
                    simp [this]
                  rw [hbump] at hwd ⊢
                  have hcnt := hinv w0 h hwd
                  show w0.session_count = _
                  simp only [eventCount]
                  rw [countList_append]
                  have hind : ¬ ((db.nextId : Nat) = w0.id) := by omega
                  simp only [hind, if_false]
                  have hcnt2 : w0.session_count =
                      (db.sessions.filter
                        (fun t => t.session_volume_id == w0.id)).length := hcnt
                  omega
                · -- the fresh volume: count bumped to 1, one referencing event
                  simp only [List.mem_singleton] at h
                  subst h
                  have hempty : db.sessions.filter
                      (fun t => t.session_volume_id == db.nextId) = [] := by
                    rw [List.filter_eq_nil_iff]
                    intro t ht
                    have := hwsv t ht
                    simp only [beq_iff_eq]
                    omega
                  simp only [beq_self_eq_true, if_true]
                  show 0 + 1 = _
                  simp only [eventCount]
                  rw [countList_append, hempty]
                  simp
            · -- the period's Volume exists: its counter is bumped by one
              have hvmem : v ∈ db.volumes := List.mem_of_find?_eq_some hv
              have hvkey := List.find?_some hv
              have hvnd : v.deleted = false := by
                simp [keyMatch] at hvkey
                exact hvkey.2
              obtain ⟨w0, hw0⟩ := Option.isSome_iff_exists.mp
                ((@List.find?_isSome _ db.volumes (fun w => w.id == v.id)).mpr
                  ⟨v, hvmem, beq_self_eq_true v.id⟩)
              have hres : (track_session db u tok d).2 =
                  { db with
                    volumes := db.volumes.map
                      (fun w => if w.id == v.id then
                        { w with session_count := w.session_count + 1 } else w)
                    sessions := db.sessions ++
                      [{ id := db.nextId, trainer_id := u.id, qr_code_id := qr.id,
                         session_volume_id := v.id, session_date := d }]
                    nextId := db.nextId + 1 } := by
                simp [track_session, DB.qrByToken, DB.userById, hrole, hq, hu, hact, hdup,
                  get_or_create_for_period, hv, increment_session_count, DB.volumeById,
                  hw0, DB.writeVolume]
              rw [hres]
              constructor
              · refine ⟨?_, ?_, ?_, ?_, ?_⟩
                · intro w hw
                  obtain ⟨w0x, hw0x, rfl⟩ := List.mem_map.mp hw
                  have hid : (if w0x.id == v.id then
                      { w0x with session_count := w0x.session_count + 1 } else w0x).id =
                      w0x.id := by
                    by_cases h : w0x.id = v.id <;> simp [h]
                  rw [hid]
                  show w0x.id < db.nextId + 1
                  have := hwv w0x hw0x
                  omega
                · intro t ht
                  show t.id < db.nextId + 1
                  rcases List.mem_append.mp ht with h | h
                  · have := hws t h
                    omega
                  · simp only [List.mem_singleton] at h
                    subst h
                    show db.nextId < db.nextId + 1
                    omega
                · intro t ht
                  show t.session_volume_id < db.nextId + 1
                  rcases List.mem_append.mp ht with h | h
                  · have := hwsv t h
                    omega
                  · simp only [List.mem_singleton] at h
                    subst h
                    show v.id < db.nextId + 1
                    have := hwv v hvmem
                    omega
                · rw [map_id_of_bump _ v.id
                    (fun w => { w with session_count := w.session_count + 1 })
                    (fun w => rfl)]
                  exact hndv
                · rw [List.map_append, List.nodup_append]
                  refine ⟨hnds, by simp, ?_⟩
                  simp only [List.map_cons, List.map_nil, List.disjoint_singleton]
                  intro hmem
                  obtain ⟨a, ha, haid⟩ := List.mem_map.mp hmem
                  have := hws a ha
                  omega
              · intro w hw hwd
                obtain ⟨w0x, hw0x, rfl⟩ := List.mem_map.mp hw
                by_cases hwid : w0x.id = v.id
                · have hbump : (if w0x.id == v.id then
                      { w0x with session_count := w0x.session_count + 1 } else w0x) =
                      { w0x with session_count := w0x.session_count + 1 } := by
                    simp [hwid]
                  rw [hbump] at hwd ⊢
                  have hcnt := hinv w0x hw0x hwd
                  show w0x.session_count + 1 = _
                  simp only [eventCount]
                  rw [countList_append]
                  have hind : ((v.id : Nat) = w0x.id) := by omega
                  simp only [hind, if_true]
                  have hcnt2 : w0x.session_count =
                      (db.sessions.filter
                        (fun t => t.session_volume_id == w0x.id)).length := hcnt
                  omega
                · have hbump : (if w0x.id == v.id then
                      { w0x with session_count := w0x.session_count + 1 } else w0x) =
                      w0x := by
                    simp [hwid]
                  rw [hbump] at hwd ⊢
                  have hcnt := hinv w0x hw0x hwd
                  show w0x.session_count = _
                  simp only [eventCount]
                  rw [countList_append]
                  have hind : ¬ ((v.id : Nat) = w0x.id) := fun h => hwid h.symm
                  simp only [hind, if_false]
                  have hcnt2 : w0x.session_count =
                      (db.sessions.filter
                        (fun t => t.session_volume_id == w0x.id)).length := hcnt
                  omega


/-- **C2** (amended): every record call (`POST /sessions/track`) and every
remove call (`DELETE /sessions/{id}`) preserves store well-formedness together
with the derived-count property — each non-deleted Volume's `session_count`
equals the number of stored AttendanceEvents referencing it (the event model
has no deletion flag, so all stored events are non-deleted).  Hence after N
record calls with N distinct dates for one (recorder, subject, period) the
count is N, and after removing one event it is N−1.  The property is *not*
maintained at every point between operations, because the content-edit
operation writes `session_count` directly (see the counterexample). -/
theorem c2_count_derived_under_record_and_remove
    (db : DB) (hwf : WF db) (hinv : countInvariant db) :
    (∀ (u : User) (tok : String) (d : PyDate),
      WF (track_session db u tok d).2 ∧ countInvariant (track_session db u tok d).2) ∧
    (∀ (u : User) (sid : Nat),
      WF (delete_session db u sid).2 ∧ countInvariant (delete_session db u sid).2) :=
  ⟨fun u tok d => track_preserves db hwf hinv u tok d,
    fun u sid => delete_preserves db hwf hinv u sid⟩

/-- Witness for the C2 amended theorem: the fixture store is well-formed and
satisfies the invariant, and so does its state after the first scan. -/
theorem c2_count_derived_witness :
    (WF dbFix ∧ countInvariant dbFix) ∧
    (WF dbAfterFirstScan ∧ countInvariant dbAfterFirstScan) :=
  ⟨⟨by decide, by decide⟩,
    (c2_count_derived_under_record_and_remove dbFix (by decide) (by decide)).1
      trainerU "tok" dMar5⟩

end BodyBack
